import Mathlib

/-!
Verification of the solo-machine IBC command dispatcher
(`solo-machine/src/command/ibc.rs`) against its natural-language
specification.

The file shallowly embeds the dispatcher, the event-renderer task and the
CLI data model from the source.  Parts of the program that live in the
`solo-machine-core` crate (the `IbcService` orchestrator, `Event`,
`Identifier` and `PublicKeyAlgo` parsing) are not part of the visible
source tree; where a claim depends on them they are modelled from the
specification, and each such definition is marked `Modelled from the
spec:` in its doc comment.
-/

namespace SoloMachine

/-- Connection details carried by the `ConnectionEstablished` event
(six identifiers, as rendered in `ibc.rs` lines 273-320). -/
structure ConnectionDetails where
  solo_machine_client_id : String
  tendermint_client_id : String
  solo_machine_connection_id : String
  tendermint_connection_id : String
  solo_machine_channel_id : String
  tendermint_channel_id : String
  deriving DecidableEq, Repr

/-- A secp256k1 verifying key, as reconstructed by
`VerifyingKey::from_sec1_bytes` (`k256` crate).  The cryptographic
representation is opaque to this core; the model keeps the accepted
SEC1 bytes. -/
structure VerifyingKey where
  bytes : List Nat
  deriving DecidableEq, Repr

/-- `PublicKey` from `solo-machine-core`: a variant over the supported
key schemes, each wrapping a verifying key (`ibc.rs` lines 369-373). -/
inductive PublicKey where
  | Secp256k1 (key : VerifyingKey)
  | EthSecp256k1 (key : VerifyingKey)
  deriving DecidableEq, Repr

/-- The event vocabulary handled by the renderer task in
`IbcCommand::execute` (`ibc.rs` lines 106-322): the fourteen IBC
variants matched explicitly, plus `NonIbcEvent`, which stands for any
variant of the core `Event` type outside the IBC vocabulary and is
caught by the `_ => bail!(..)` arm at line 321. -/
inductive Event where
  | TokensSent (chain_id from_address to_address : String)
      (amount : Nat) (denom : String)
  | TokensReceived (chain_id from_address to_address : String)
      (amount : Nat) (denom : String)
  | SignerUpdated (chain_id : String)
      (old_public_key new_public_key : PublicKey)
  | CreatedSoloMachineClient (client_id : String)
  | CreatedTendermintClient (client_id : String)
  | InitializedConnectionOnTendermint (connection_id : String)
  | InitializedConnectionOnSoloMachine (connection_id : String)
  | ConfirmedConnectionOnTendermint (connection_id : String)
  | ConfirmedConnectionOnSoloMachine (connection_id : String)
  | InitializedChannelOnTendermint (channel_id : String)
  | InitializedChannelOnSoloMachine (channel_id : String)
  | ConfirmedChannelOnTendermint (channel_id : String)
  | ConfirmedChannelOnSoloMachine (channel_id : String)
  | ConnectionEstablished (chain_id : String)
      (connection_details : ConnectionDetails)
  | NonIbcEvent
  deriving DecidableEq, Repr

/-- One unit of output produced by the renderer: a bold highlighted
line (`print_stream` with a bold `ColorSpec`), a blank line
(`writeln!(stdout)`), or a key/value table (`print_stdout(table...)`). -/
inductive RenderItem where
  | boldLine (s : String)
  | blankLine
  | table (rows : List (String × String))
  deriving DecidableEq, Repr

/-- The renderer body for a single event, translated arm by arm from the
`match event` expression in `ibc.rs` lines 107-322.  The catch-all arm
(`_ => bail!("non-ibc event in ibc command")`) becomes the error case. -/
def renderEvent : Event → Except String (List RenderItem)
  | .TokensSent chain_id from_address to_address amount denom =>
      .ok [.boldLine "Tokens sent!", .blankLine,
           .table [("Chain ID", chain_id), ("From", from_address),
                   ("To", to_address), ("Amount", toString amount),
                   ("Denom", denom)]]
  | .TokensReceived chain_id from_address to_address amount denom =>
      .ok [.boldLine "Tokens received!", .blankLine,
           .table [("Chain ID", chain_id), ("From", from_address),
                   ("To", to_address), ("Amount", toString amount),
                   ("Denom", denom)]]
  | .SignerUpdated chain_id _ _ =>
      .ok [.boldLine "Signer updated!", .blankLine,
           .table [("Chain ID", chain_id)]]
  | .CreatedSoloMachineClient client_id =>
      .ok [.boldLine
        (String.append
          "Created solo machine client on IBC enabled chain [Client ID = "
          (String.append client_id "]"))]
  | .CreatedTendermintClient client_id =>
      .ok [.boldLine
        (String.append
          "Created tendermint client on solo machine [Client ID = "
          (String.append client_id "]"))]
  | .InitializedConnectionOnTendermint connection_id =>
      .ok [.boldLine
        (String.append
          "Initialized connection on IBC enabled chain [Connection ID = "
          (String.append connection_id "]"))]
  | .InitializedConnectionOnSoloMachine connection_id =>
      .ok [.boldLine
        (String.append
          "Initialized connection on solo machine [Connection ID = "
          (String.append connection_id "]"))]
  | .ConfirmedConnectionOnTendermint connection_id =>
      .ok [.boldLine
        (String.append
          "Confirmed connection on IBC enabled chain [Connection ID = "
          (String.append connection_id "]"))]
  | .ConfirmedConnectionOnSoloMachine connection_id =>
      .ok [.boldLine
        (String.append
          "Confirmed connection on solo machine [Connection ID = "
          (String.append connection_id "]"))]
  | .InitializedChannelOnTendermint channel_id =>
      .ok [.boldLine
        (String.append
          "Initialized channel on IBC enabled chain [Channel ID = "
          (String.append channel_id "]"))]
  | .InitializedChannelOnSoloMachine channel_id =>
      .ok [.boldLine
        (String.append
          "Initialized channel on solo machine [Channel ID = "
          (String.append channel_id "]"))]
  | .ConfirmedChannelOnTendermint channel_id =>
      .ok [.boldLine
        (String.append
          "Confirmed channel on IBC enabled chain [Channel ID = "
          (String.append channel_id "]"))]
  | .ConfirmedChannelOnSoloMachine channel_id =>
      .ok [.boldLine
        (String.append
          "Confirmed channel on solo machine [Channel ID = "
          (String.append channel_id "]"))]
  | .ConnectionEstablished chain_id cd =>
      .ok [.boldLine "Connection established!", .blankLine,
           .table [("Chain ID", chain_id),
                   ("Solo machine client ID", cd.solo_machine_client_id),
                   ("Tendermint client ID", cd.tendermint_client_id),
                   ("Solo machine connection ID", cd.solo_machine_connection_id),
                   ("Tendermint connection ID", cd.tendermint_connection_id),
                   ("Solo machine channel ID", cd.solo_machine_channel_id),
                   ("Tendermint channel ID", cd.tendermint_channel_id)]]
  | .NonIbcEvent => .error "non-ibc event in ibc command"

/-- An event belongs to the closed fourteen-variant IBC vocabulary
enumerated in the spec (everything except the catch-all). -/
def isIbcEvent : Event → Bool
  | .NonIbcEvent => false
  | _ => true

/-- State of the unbounded mpsc channel created at `ibc.rs` line 101:
the queue of events sent but not yet received, in send order, and
whether the sending handle has been dropped. -/
structure Channel where
  buffered : List Event
  closed : Bool
  deriving DecidableEq, Repr

/-- One `receiver.recv().await` step (`ibc.rs` line 106).  The result
distinguishes the three possible outcomes of `recv` on an mpsc channel:
an event is delivered, end-of-stream is observed (channel closed and
drained), or the call would suspend awaiting a future send. -/
inductive RecvResult where
  | event (e : Event)
  | endOfStream
  | wouldBlock
  deriving DecidableEq, Repr

/-- Semantics of `recv` on the unbounded channel: deliver the oldest
buffered event if any; otherwise signal end-of-stream exactly when the
sender has been dropped, and suspend otherwise. -/
def Channel.recv : Channel → RecvResult × Channel
  | ⟨e :: rest, closed⟩ => (.event e, ⟨rest, closed⟩)
  | ⟨[], true⟩ => (.endOfStream, ⟨[], true⟩)
  | ⟨[], false⟩ => (.wouldBlock, ⟨[], false⟩)

/-- `sender.send` on the unbounded channel: append to the queue. -/
def Channel.send (ch : Channel) (e : Event) : Channel :=
  { ch with buffered := ch.buffered ++ [e] }

/-- Sending a whole event sequence, in order. -/
def Channel.sendAll (ch : Channel) : List Event → Channel
  | [] => ch
  | e :: rest => (ch.send e).sendAll rest

/-- Dropping the sending handle (orchestrator finished): the channel
closes; already-buffered events stay available. -/
def Channel.close (ch : Channel) : Channel :=
  { ch with closed := true }

/-- The renderer task's receive loop (`while let Some(event) =
receiver.recv().await`, `ibc.rs` lines 106-325) run on a closed
channel's buffered events: renders each event in order and stops with
`Ok(())` at end-of-stream, or with the first rendering error.  The
accumulated output is returned alongside the result. -/
def rendererDrain : List Event → List RenderItem × Except String Unit
  | [] => ([], .ok ())
  | e :: rest =>
      match renderEvent e with
      | .error msg => ([], .error msg)
      | .ok out =>
          let (outs, res) := rendererDrain rest
          (out ++ outs, res)

/-- The sequence of events the renderer observes while draining a
channel: the buffered events in queue order. -/
def rendererObservedEvents (ch : Channel) : List Event :=
  ch.buffered

/-- The dispatcher's reconciliation of the orchestrator's result with
the renderer task's result, translated from `ibc.rs` lines 328-382:
the `match self { .. }?` at line 379 propagates an orchestrator error
immediately, returning before `handle.await` at line 382; only when the
orchestrator succeeds is the renderer's join handle awaited and its
result returned.  `rendererAwaited` records whether `handle.await` was
reached. -/
structure DispatchOutcome where
  result : Except String Unit
  rendererAwaited : Bool
  deriving Repr

/-- `IbcCommand::execute`'s result reconciliation (`ibc.rs` lines
328-382), as a function of the orchestrator's result and the renderer
task's result. -/
def executeReconcile (orch : Except String Unit)
    (renderer : Except String Unit) : DispatchOutcome :=
  match orch with
  | .error e => ⟨.error e, false⟩
  | .ok () => ⟨renderer, true⟩

/-! CLI surface: amounts, memo resolution, public-key algorithms. -/

/-- The `amount` CLI field of `Send` and `Receive` is declared `u32`
(`ibc.rs` lines 40 and 59).  Parsing an integer into that field
succeeds exactly when the value lies in the u32 range. -/
def parseAmountU32 (n : Int) : Option Nat :=
  if 0 ≤ n ∧ n < 2 ^ 32 then some n.toNat else none

/-- A `structopt` argument attribute as written on the four `memo`
fields: an optional `--memo` flag with a default value and an
environment-variable fallback. -/
structure ArgAttr where
  default_value : String
  env : String
  deriving DecidableEq, Repr

/-- The `memo` attribute of `Connect` (`ibc.rs` lines 27-32). -/
def connectMemoAttr : ArgAttr := ⟨"solo-machine-memo", "SOLO_MEMO"⟩

/-- The `memo` attribute of `Send` (`ibc.rs` lines 46-51). -/
def sendMemoAttr : ArgAttr := ⟨"solo-machine-memo", "SOLO_MEMO"⟩

/-- The `memo` attribute of `Receive` (`ibc.rs` lines 65-70). -/
def receiveMemoAttr : ArgAttr := ⟨"solo-machine-memo", "SOLO_MEMO"⟩

/-- The `memo` attribute of `UpdateSigner` (`ibc.rs` lines 84-89). -/
def updateSignerMemoAttr : ArgAttr := ⟨"solo-machine-memo", "SOLO_MEMO"⟩

/-- Resolution of an argument with a default value and environment
fallback, following structopt/clap precedence: an explicit
command-line value wins, otherwise the environment variable's value,
otherwise the attribute's hard default. -/
def resolveArg (attr : ArgAttr) (cli envVal : Option String) : String :=
  match cli with
  | some v => v
  | none =>
      match envVal with
      | some v => v
      | none => attr.default_value

/-- The `possible_values` list for `--public-key-algo` (`ibc.rs` line
18): both algorithm names are accepted by the CLI parser in every
build. -/
def PUBLIC_KEY_ALGO_VARIANTS : List String := ["secp256k1", "eth-secp256k1"]

/-- Public-key algorithm selector (`PublicKeyAlgo` in
`solo-machine-core`).  Both tags exist in the model; availability of
`EthSecp256k1` is a capability flag checked at validation time. -/
inductive PublicKeyAlgo where
  | Secp256k1
  | EthSecp256k1
  deriving DecidableEq, Repr

/-- Modelled from the spec: parsing the `--public-key-algo` string into
`PublicKeyAlgo` lives in `solo-machine-core`, which is outside the
visible source tree.  Per the spec, selection of a disabled tag is
rejected at the validation stage with a specific "capability not
enabled" error rather than by a type-level absence of the variant;
`ethermintEnabled` is the build-time capability flag for the
`eth-secp256k1` tag (the `ethermint` cargo feature). -/
def parsePublicKeyAlgo (ethermintEnabled : Bool) (s : String) :
    Except String PublicKeyAlgo :=
  if s = "secp256k1" then .ok .Secp256k1
  else if s = "eth-secp256k1" then
    if ethermintEnabled then .ok .EthSecp256k1
    else .error "capability not enabled: eth-secp256k1"
  else .error "invalid public key algorithm"

/-! Hex decoding, as performed by `hex::decode` at `ibc.rs` line 364. -/

/-- Value of one hexadecimal digit, case-insensitive, as accepted by
`hex::decode`. -/
def hexDigitValue (c : Char) : Option Nat :=
  if '0' ≤ c ∧ c ≤ '9' then some (c.toNat - '0'.toNat)
  else if 'a' ≤ c ∧ c ≤ 'f' then some (c.toNat - 'a'.toNat + 10)
  else if 'A' ≤ c ∧ c ≤ 'F' then some (c.toNat - 'A'.toNat + 10)
  else none

/-- Decode a character list two digits at a time; fails on an odd
number of digits or any non-hex character, as `hex::decode` does. -/
def hexDecodeChars : List Char → Option (List Nat)
  | [] => some []
  | [_] => none
  | hi :: lo :: rest =>
      match hexDigitValue hi, hexDigitValue lo with
      | some h, some l =>
          match hexDecodeChars rest with
          | some bytes => some ((h * 16 + l) :: bytes)
          | none => none
      | _, _ => none

/-- `hex::decode` on a string: the byte list, or failure. -/
def hexDecode (s : String) : Option (List Nat) :=
  hexDecodeChars s.data

/-! The four orchestrator flows.  `IbcService` lives in
`solo-machine-core`, outside the visible source tree; its entry points
are modelled from the spec where a claim needs them.  `txResult`
stands for the outcome of the downstream transport/consensus
interaction performed by the collaborators, and `validIdentifier` for
the `Identifier` type's own construction-time validation. -/

/-- Events carried by a flow result: the emitted list on success, none
on failure (the spec's invariant: orchestrator failure means no
further events). -/
def emittedEvents : Except String (List Event) → List Event
  | .ok es => es
  | .error _ => []

/-- An `Except` result is a success. -/
def isOkE {α : Type} : Except String α → Bool
  | .ok _ => true
  | .error _ => false

/-- Modelled from the spec: `IbcService::send_to_chain` (in
`solo-machine-core`, not in the visible source).  Per spec section 4.1,
the Send flow validates the amount (> 0), invokes the remote-chain
transfer primitive, then emits exactly one `TokensSent` event whose
receiver defaults to the signer's own address when omitted. -/
def send_to_chain (txResult : Except String Unit)
    (signerAddress chain_id : String) (amount : Nat) (denom : String)
    (receiver : Option String) (_memo : String) :
    Except String (List Event) :=
  if amount = 0 then .error "amount must be positive"
  else
    match txResult with
    | .error e => .error e
    | .ok () =>
        .ok [Event.TokensSent chain_id signerAddress
              (receiver.getD signerAddress) amount denom]

/-- Modelled from the spec: `IbcService::receive_from_chain` (in
`solo-machine-core`, not in the visible source).  Mirror image of the
Send flow, emitting exactly one `TokensReceived` event. -/
def receive_from_chain (txResult : Except String Unit)
    (signerAddress chain_id : String) (amount : Nat) (denom : String)
    (receiver : Option String) (_memo : String) :
    Except String (List Event) :=
  if amount = 0 then .error "amount must be positive"
  else
    match txResult with
    | .error e => .error e
    | .ok () =>
        .ok [Event.TokensReceived chain_id signerAddress
              (receiver.getD signerAddress) amount denom]

/-- A Send invocation as seen from the CLI boundary: the `denom`
argument is parsed into an `Identifier` by the CLI layer before
`execute` runs (spec section 3: invalid input is rejected at
construction), then the orchestrator entry point is invoked. -/
def sendInvocation (validIdentifier : String → Bool)
    (txResult : Except String Unit) (signerAddress chain_id : String)
    (amount : Nat) (denom : String) (receiver : Option String)
    (memo : String) : Except String (List Event) :=
  if validIdentifier denom then
    send_to_chain txResult signerAddress chain_id amount denom receiver memo
  else .error "invalid denom identifier"

/-- A Receive invocation as seen from the CLI boundary. -/
def receiveInvocation (validIdentifier : String → Bool)
    (txResult : Except String Unit) (signerAddress chain_id : String)
    (amount : Nat) (denom : String) (receiver : Option String)
    (memo : String) : Except String (List Event) :=
  if validIdentifier denom then
    receive_from_chain txResult signerAddress chain_id amount denom receiver memo
  else .error "invalid denom identifier"

/-- Modelled from the spec: `IbcService::update_signer` (in
`solo-machine-core`, not in the visible source).  It submits the
rotation transaction and then emits exactly one `SignerUpdated`
event. -/
def update_signer (txResult : Except String Unit) (chain_id : String)
    (oldKey newKey : PublicKey) (_memo : String) :
    Except String (List Event) :=
  match txResult with
  | .error e => .error e
  | .ok () => .ok [Event.SignerUpdated chain_id oldKey newKey]

/-- Trace of one UpdateSigner invocation: its result, whether any
`IbcService` (network/storage) call was made, and the events emitted. -/
structure UpdateSignerTrace where
  result : Except String Unit
  serviceInvoked : Bool
  events : List Event
  deriving Repr

/-- The `UpdateSigner` arm of `IbcCommand::execute` (`ibc.rs` lines
357-378): hex-decode the key (line 364, context "unable to decode hex
bytes"), reconstruct the verifying key (line 366, context "invalid
secp256k1 bytes"), wrap it in the `PublicKey` variant selected by the
algorithm (lines 369-373), and only then call
`ibc_service.update_signer` (lines 375-377).  `fromSec1` stands for
`VerifyingKey::from_sec1_bytes` of the external `k256` crate. -/
def updateSignerExecute (fromSec1 : List Nat → Option VerifyingKey)
    (txResult : Except String Unit) (oldKey : PublicKey)
    (chain_id new_public_key : String) (public_key_algo : PublicKeyAlgo)
    (memo : String) : UpdateSignerTrace :=
  match hexDecode new_public_key with
  | none => ⟨.error "unable to decode hex bytes", false, []⟩
  | some new_public_key_bytes =>
      match fromSec1 new_public_key_bytes with
      | none => ⟨.error "invalid secp256k1 bytes", false, []⟩
      | some new_verifying_key =>
          let newKey :=
            match public_key_algo with
            | .Secp256k1 => PublicKey.Secp256k1 new_verifying_key
            | .EthSecp256k1 => PublicKey.EthSecp256k1 new_verifying_key
          match update_signer txResult chain_id oldKey newKey memo with
          | .error e => ⟨.error e, true, []⟩
          | .ok events => ⟨.ok (), true, events⟩

/-- A full UpdateSigner invocation from the CLI boundary: the
`--public-key-algo` string is validated and parsed before `execute`
runs (CLI validation stage), then the `UpdateSigner` arm executes. -/
def updateSignerInvocation (ethermintEnabled : Bool)
    (fromSec1 : List Nat → Option VerifyingKey)
    (txResult : Except String Unit) (oldKey : PublicKey)
    (chain_id new_public_key algoStr memo : String) : UpdateSignerTrace :=
  match parsePublicKeyAlgo ethermintEnabled algoStr with
  | .error e => ⟨.error e, false, []⟩
  | .ok algo =>
      updateSignerExecute fromSec1 txResult oldKey chain_id new_public_key
        algo memo

/-- Modelled from the spec: the event sequence of a successful Connect
flow, in the strict step order of spec section 4.1 (steps 1-11),
executed by `IbcService::connect` in `solo-machine-core` (not in the
visible source). -/
def connectEvents (chain_id : String) (cd : ConnectionDetails) : List Event :=
  [Event.CreatedSoloMachineClient cd.solo_machine_client_id,
   Event.CreatedTendermintClient cd.tendermint_client_id,
   Event.InitializedConnectionOnSoloMachine cd.solo_machine_connection_id,
   Event.InitializedConnectionOnTendermint cd.tendermint_connection_id,
   Event.ConfirmedConnectionOnTendermint cd.tendermint_connection_id,
   Event.ConfirmedConnectionOnSoloMachine cd.solo_machine_connection_id,
   Event.InitializedChannelOnTendermint cd.tendermint_channel_id,
   Event.InitializedChannelOnSoloMachine cd.solo_machine_channel_id,
   Event.ConfirmedChannelOnTendermint cd.tendermint_channel_id,
   Event.ConfirmedChannelOnSoloMachine cd.solo_machine_channel_id,
   Event.ConnectionEstablished chain_id cd]

/-- A successful Connect invocation's effect on the event channel: the
orchestrator sends each milestone event in order as the corresponding
step completes, then finishes, dropping the sending handle (the
channel closes). -/
def connectRun (chain_id : String) (cd : ConnectionDetails)
    (ch : Channel) : Channel :=
  (ch.sendAll (connectEvents chain_id cd)).close

/-- Draining a channel completely: the events received, in receive
order, and the final channel state. -/
def Channel.drain : Channel → List Event × Channel
  | ⟨[], c⟩ => ([], ⟨[], c⟩)
  | ⟨e :: rest, c⟩ =>
      let (es, ch) := Channel.drain ⟨rest, c⟩
      (e :: es, ch)

/-! Helper lemmas shared between the claim theorems. -/

/-- Sending a sequence of events appends it to the buffer in order. -/
theorem Channel.sendAll_buffered (es : List Event) (ch : Channel) :
    (ch.sendAll es).buffered = ch.buffered ++ es := by
  induction es generalizing ch with
  | nil => simp [Channel.sendAll]
  | cons e rest ih =>
      simp [Channel.sendAll, Channel.send, ih]

/-- Closing a channel keeps the buffered events. -/
theorem Channel.close_buffered (ch : Channel) :
    ch.close.buffered = ch.buffered := rfl

/-- Every event of the closed IBC vocabulary renders successfully. -/
theorem renderEvent_ok_of_isIbcEvent (e : Event)
    (h : isIbcEvent e = true) : ∃ out, renderEvent e = .ok out := by
  cases e <;> simp_all [isIbcEvent, renderEvent]

/-- Draining a closed channel yields exactly the buffered events, in
order, and leaves the channel empty and closed. -/
theorem Channel.drain_closed (buf : List Event) :
    (Channel.mk buf true).drain = (buf, Channel.mk [] true) := by
  induction buf with
  | nil => simp [Channel.drain]
  | cons e rest ih => simp [Channel.drain, ih]

/-- The renderer loop succeeds on a list of vocabulary events. -/
theorem rendererDrain_ok (buf : List Event)
    (h : ∀ e ∈ buf, isIbcEvent e = true) :
    (rendererDrain buf).2 = .ok () := by
  induction buf with
  | nil => rfl
  | cons e rest ih =>
      obtain ⟨out, hout⟩ := renderEvent_ok_of_isIbcEvent e (h e (by simp))
      simp [rendererDrain, hout]
      exact ih fun x hx => h x (by simp [hx])

/-! Claim theorems. -/

/-- Claim C1, counterexample: when both the orchestrator and the
renderer fail, `IbcCommand::execute` returns the orchestrator's error
as primary, but the renderer's failure is not observable: the `?` at
`ibc.rs` line 379 returns before `handle.await` at line 382 is
reached, so the renderer task's result is dropped.  The claim as
stated (primary error is the orchestrator's AND the renderer's failure
is still observable) is false at this input. -/
theorem executeReconcile_both_fail_counterexample :
    ¬ ((executeReconcile (.error "orchestrator failed")
          (.error "renderer failed")).result = .error "orchestrator failed" ∧
       (executeReconcile (.error "orchestrator failed")
          (.error "renderer failed")).rendererAwaited = true) := by
  simp [executeReconcile]

/-- Claim C1 (amended): the overall result of `IbcCommand::execute` is
a failure iff the orchestrator or the renderer failed.  When the
orchestrator fails, its error is returned immediately and the
renderer's join handle is never awaited, so a simultaneous renderer
failure is dropped unobserved; the renderer's result is surfaced only
when the orchestrator succeeds. -/
theorem executeReconcile_reconciliation (orch renderer : Except String Unit) :
    ((executeReconcile orch renderer).result = .ok () ↔
      orch = .ok () ∧ renderer = .ok ()) ∧
    (∀ e, orch = .error e →
      executeReconcile orch renderer = ⟨.error e, false⟩) ∧
    (orch = .ok () → executeReconcile orch renderer = ⟨renderer, true⟩) := by
  cases orch with
  | error e => cases renderer <;> simp [executeReconcile]
  | ok u => cases u; cases renderer <;> simp [executeReconcile]

/-- Claim C1 witness: the amended theorem applied at a failing
orchestrator and a succeeding renderer. -/
theorem executeReconcile_reconciliation_witness :
    executeReconcile (.error "orchestrator down") (.ok ()) =
      ⟨.error "orchestrator down", false⟩ :=
  (executeReconcile_reconciliation (.error "orchestrator down")
    (.ok ())).2.1 "orchestrator down" rfl

/-- Claim C2: selecting `eth-secp256k1` in a build without the
`ethermint` capability is rejected at the validation stage with a
specific "capability not enabled" error, before any `IbcService`
(network) interaction and with no events emitted; the string is still
part of the CLI surface (`PUBLIC_KEY_ALGO_VARIANTS`) in every build,
and the same string parses successfully when the capability is
enabled, so the rejection is a runtime error, not a type-level absence
of the variant. -/
theorem updateSigner_disabled_algo_rejected
    (fromSec1 : List Nat → Option VerifyingKey)
    (txResult : Except String Unit) (oldKey : PublicKey)
    (chain_id new_public_key memo : String) :
    updateSignerInvocation false fromSec1 txResult oldKey chain_id
        new_public_key "eth-secp256k1" memo =
      ⟨.error "capability not enabled: eth-secp256k1", false, []⟩ ∧
    "eth-secp256k1" ∈ PUBLIC_KEY_ALGO_VARIANTS ∧
    parsePublicKeyAlgo true "eth-secp256k1" = .ok .EthSecp256k1 := by
  refine ⟨?_, by simp [PUBLIC_KEY_ALGO_VARIANTS], by simp [parsePublicKeyAlgo]⟩
  simp [updateSignerInvocation, parsePublicKeyAlgo]

/-- Claim C3: the renderer body renders every event of the closed
fourteen-variant IBC vocabulary and fails with the "non-ibc event in
ibc command" error on any other variant rather than silently ignoring
it. -/
theorem renderEvent_vocabulary :
    (∀ e : Event, isOkE (renderEvent e) = isIbcEvent e) ∧
    renderEvent Event.NonIbcEvent = .error "non-ibc event in ibc command" := by
  refine ⟨fun e => ?_, rfl⟩
  cases e <;> rfl

/-- Claim C4: the UpdateSigner arm hex-decodes the key and validates
the bytes as a secp256k1 point before `IbcService` is invoked; invalid
hex fails with "unable to decode hex bytes", a non-curve-point byte
string fails with "invalid secp256k1 bytes", each with the service not
invoked and zero events emitted; conversely, the service is only ever
invoked once both validations have succeeded. -/
theorem updateSigner_validates_before_service
    (fromSec1 : List Nat → Option VerifyingKey)
    (txResult : Except String Unit) (oldKey : PublicKey)
    (chain_id new_public_key memo : String) (algo : PublicKeyAlgo) :
    (hexDecode new_public_key = none →
      updateSignerExecute fromSec1 txResult oldKey chain_id new_public_key
          algo memo =
        ⟨.error "unable to decode hex bytes", false, []⟩) ∧
    (∀ bytes, hexDecode new_public_key = some bytes → fromSec1 bytes = none →
      updateSignerExecute fromSec1 txResult oldKey chain_id new_public_key
          algo memo =
        ⟨.error "invalid secp256k1 bytes", false, []⟩) ∧
    ((updateSignerExecute fromSec1 txResult oldKey chain_id new_public_key
        algo memo).serviceInvoked = true →
      ∃ bytes vk, hexDecode new_public_key = some bytes ∧
        fromSec1 bytes = some vk) := by
  refine ⟨fun h => ?_, fun bytes h1 h2 => ?_, fun h => ?_⟩
  · simp [updateSignerExecute, h]
  · simp [updateSignerExecute, h1, h2]
  · cases hh : hexDecode new_public_key with
    | none => simp [updateSignerExecute, hh] at h
    | some bytes =>
        cases hf : fromSec1 bytes with
        | none => simp [updateSignerExecute, hh, hf] at h
        | some vk => exact ⟨bytes, vk, rfl, hf⟩

/-- Claim C4 witness: invalid hex ("zz") and a byte string rejected by
the curve-point check both fail before the service, with zero events. -/
theorem updateSigner_validates_witness :
    updateSignerExecute (fun _ => none) (.ok ()) (PublicKey.Secp256k1 ⟨[]⟩)
        "testchain-1" "zz" .Secp256k1 "memo" =
      ⟨.error "unable to decode hex bytes", false, []⟩ ∧
    updateSignerExecute (fun _ => none) (.ok ()) (PublicKey.Secp256k1 ⟨[]⟩)
        "testchain-1" "00" .Secp256k1 "memo" =
      ⟨.error "invalid secp256k1 bytes", false, []⟩ :=
  ⟨(updateSigner_validates_before_service (fun _ => none) (.ok ())
      (PublicKey.Secp256k1 ⟨[]⟩) "testchain-1" "zz" "memo" .Secp256k1).1
      (by decide),
   (updateSigner_validates_before_service (fun _ => none) (.ok ())
      (PublicKey.Secp256k1 ⟨[]⟩) "testchain-1" "00" "memo" .Secp256k1).2.1
      [0] (by decide) rfl⟩

/-- Claim C5: a Send or Receive invocation with a positive amount and
a valid denom (and a successful downstream transaction) emits exactly
one `TokensSent` respectively `TokensReceived` event; a zero amount or
a malformed denom is rejected before any event is emitted. -/
theorem send_receive_validated
    (validIdentifier : String → Bool) (txResult : Except String Unit)
    (signerAddress chain_id denom memo : String) (amount : Nat)
    (receiver : Option String) :
    (0 < amount → validIdentifier denom = true → txResult = .ok () →
      sendInvocation validIdentifier txResult signerAddress chain_id amount
          denom receiver memo =
        .ok [Event.TokensSent chain_id signerAddress
              (receiver.getD signerAddress) amount denom] ∧
      receiveInvocation validIdentifier txResult signerAddress chain_id amount
          denom receiver memo =
        .ok [Event.TokensReceived chain_id signerAddress
              (receiver.getD signerAddress) amount denom]) ∧
    (amount = 0 ∨ validIdentifier denom = false →
      isOkE (sendInvocation validIdentifier txResult signerAddress chain_id
        amount denom receiver memo) = false ∧
      emittedEvents (sendInvocation validIdentifier txResult signerAddress
        chain_id amount denom receiver memo) = [] ∧
      isOkE (receiveInvocation validIdentifier txResult signerAddress chain_id
        amount denom receiver memo) = false ∧
      emittedEvents (receiveInvocation validIdentifier txResult signerAddress
        chain_id amount denom receiver memo) = []) := by
  constructor
  · intro ha hv ht
    have hz : ¬ amount = 0 := by omega
    subst ht
    simp [sendInvocation, receiveInvocation, send_to_chain,
      receive_from_chain, hv, hz]
  · intro h
    rcases h with hz | hv
    · subst hz
      cases hvd : validIdentifier denom <;>
        simp [sendInvocation, receiveInvocation, send_to_chain,
          receive_from_chain, hvd, isOkE, emittedEvents]
    · simp [sendInvocation, receiveInvocation, hv, isOkE, emittedEvents]

/-- Claim C5 witness: Send with amount 100 and denom "uatom" emits one
`TokensSent` event; Send with amount 0 is rejected with no events. -/
theorem send_receive_validated_witness :
    sendInvocation (fun d => d == "uatom") (.ok ()) "solo-signer"
        "testchain-1" 100 "uatom" none "solo-machine-memo" =
      .ok [Event.TokensSent "testchain-1" "solo-signer" "solo-signer"
            100 "uatom"] ∧
    emittedEvents (sendInvocation (fun d => d == "uatom") (.ok ())
        "solo-signer" "testchain-1" 0 "uatom" none "solo-machine-memo") = [] :=
  ⟨((send_receive_validated (fun d => d == "uatom") (.ok ()) "solo-signer"
      "testchain-1" "uatom" "solo-machine-memo" 100 none).1
      (by decide) (by decide) rfl).1,
   ((send_receive_validated (fun d => d == "uatom") (.ok ()) "solo-signer"
      "testchain-1" "uatom" "solo-machine-memo" 0 none).2
      (Or.inl rfl)).2.1⟩

/-- Claim C6: on a successful Connect invocation, the renderer
observes exactly the eleven milestone events of spec section 4.1, in
production order, with no gaps, reorderings or duplicates: the
channel delivers the produced sequence unchanged, it has length
eleven, and it contains no duplicate events. -/
theorem connect_events_in_order (chain_id : String) (cd : ConnectionDetails) :
    rendererObservedEvents (connectRun chain_id cd (Channel.mk [] false)) =
      connectEvents chain_id cd ∧
    (connectEvents chain_id cd).length = 11 ∧
    (connectEvents chain_id cd).Nodup := by
  refine ⟨?_, rfl, ?_⟩
  · simp [rendererObservedEvents, connectRun, Channel.close_buffered,
      Channel.sendAll_buffered]
  · simp [connectEvents]

/-- Claim C7: once the sending handle is dropped (channel closed),
draining yields every already-buffered event in order and leaves an
empty closed channel, a subsequent receive yields end-of-stream rather
than blocking, and the renderer loop returns success when every
buffered event renders without error. -/
theorem renderer_terminates_on_close (buf : List Event)
    (h : ∀ e ∈ buf, isIbcEvent e = true) :
    (Channel.mk buf true).drain = (buf, Channel.mk [] true) ∧
    (Channel.mk [] true).recv = (RecvResult.endOfStream, Channel.mk [] true) ∧
    (rendererDrain buf).2 = .ok () :=
  ⟨Channel.drain_closed buf, rfl, rendererDrain_ok buf h⟩

/-- Claim C7 witness: a closed channel holding one buffered milestone
event is drained and rendered successfully. -/
theorem renderer_terminates_on_close_witness :
    (Channel.mk [Event.CreatedSoloMachineClient "07-tendermint-0"]
        true).drain =
      ([Event.CreatedSoloMachineClient "07-tendermint-0"],
        Channel.mk [] true) ∧
    (rendererDrain [Event.CreatedSoloMachineClient "07-tendermint-0"]).2 =
      .ok () :=
  ⟨(renderer_terminates_on_close
      [Event.CreatedSoloMachineClient "07-tendermint-0"] (by decide)).1,
   (renderer_terminates_on_close
      [Event.CreatedSoloMachineClient "07-tendermint-0"] (by decide)).2.2⟩

/-- Claim C8: a Send invocation with the receiver omitted emits a
`TokensSent` event whose to-address equals the signer's own address. -/
theorem send_default_receiver
    (validIdentifier : String → Bool)
    (signerAddress chain_id denom memo : String) (amount : Nat)
    (ha : 0 < amount) (hv : validIdentifier denom = true) :
    sendInvocation validIdentifier (.ok ()) signerAddress chain_id amount
        denom none memo =
      .ok [Event.TokensSent chain_id signerAddress signerAddress amount
            denom] := by
  have hz : ¬ amount = 0 := by omega
  simp [sendInvocation, send_to_chain, hv, hz]

/-- Claim C8 witness: the spec's scenario, Send on "testchain-1" of
100 "uatom" with no receiver, addressed to the signer itself. -/
theorem send_default_receiver_witness :
    sendInvocation (fun d => d == "uatom") (.ok ()) "cosmos1selfaddr"
        "testchain-1" 100 "uatom" none "solo-machine-memo" =
      .ok [Event.TokensSent "testchain-1" "cosmos1selfaddr"
            "cosmos1selfaddr" 100 "uatom"] :=
  send_default_receiver (fun d => d == "uatom") "cosmos1selfaddr"
    "testchain-1" "uatom" "solo-machine-memo" 100 (by decide) (by decide)

/-- Claim C9: all four flows carry the same memo argument attribute
(default "solo-machine-memo", environment variable SOLO_MEMO), and the
memo resolves with the precedence command-line value, else environment
value, else the hard default. -/
theorem memo_resolution (v e : String) (envVal : Option String) :
    (connectMemoAttr = ⟨"solo-machine-memo", "SOLO_MEMO"⟩ ∧
     sendMemoAttr = connectMemoAttr ∧
     receiveMemoAttr = connectMemoAttr ∧
     updateSignerMemoAttr = connectMemoAttr) ∧
    (resolveArg connectMemoAttr (some v) envVal = v ∧
     resolveArg connectMemoAttr none (some e) = e ∧
     resolveArg connectMemoAttr none none = "solo-machine-memo") ∧
    (resolveArg sendMemoAttr (some v) envVal = v ∧
     resolveArg sendMemoAttr none (some e) = e ∧
     resolveArg sendMemoAttr none none = "solo-machine-memo") ∧
    (resolveArg receiveMemoAttr (some v) envVal = v ∧
     resolveArg receiveMemoAttr none (some e) = e ∧
     resolveArg receiveMemoAttr none none = "solo-machine-memo") ∧
    (resolveArg updateSignerMemoAttr (some v) envVal = v ∧
     resolveArg updateSignerMemoAttr none (some e) = e ∧
     resolveArg updateSignerMemoAttr none none = "solo-machine-memo") :=
  ⟨⟨rfl, rfl, rfl, rfl⟩, ⟨rfl, rfl, rfl⟩, ⟨rfl, rfl, rfl⟩,
   ⟨rfl, rfl, rfl⟩, ⟨rfl, rfl, rfl⟩⟩

/-- Claim C10: the `amount` CLI field of Send and Receive is a 32-bit
unsigned integer: an integer parses into it exactly when it lies in
[0, 2^32 - 1]; negative values and values above 2^32 - 1 are
unrepresentable. -/
theorem amount_is_u32 (n : Int) :
    ((parseAmountU32 n).isSome ↔ 0 ≤ n ∧ n ≤ 2 ^ 32 - 1) ∧
    (n < 0 → parseAmountU32 n = none) ∧
    (2 ^ 32 - 1 < n → parseAmountU32 n = none) := by
  unfold parseAmountU32
  refine ⟨?_, fun h => ?_, fun h => ?_⟩
  · split <;> simp_all <;> omega
  · split
    · omega
    · rfl
  · split
    · omega
    · rfl

/-- Claim C10 witness: -1 and 2^32 are both rejected by the u32
amount field. -/
theorem amount_is_u32_witness :
    parseAmountU32 (-1) = none ∧ parseAmountU32 (2 ^ 32) = none :=
  ⟨(amount_is_u32 (-1)).2.1 (by norm_num),
   (amount_is_u32 (2 ^ 32)).2.2 (by norm_num)⟩

end SoloMachine
